import Mathlib

set_option linter.unusedVariables false

/-
Shallow embedding of the kicker_to_pick repository.

The repository holds two variants of the same script:
  - src/kicker_to_pick.py (a legacy standalone script), and
  - src/src/kicker_to_pick/kicker_to_pick.py (the packaged implementation,
    exported by the package __init__).
The definitions below are translated from the packaged implementation; where
the legacy variant behaves differently on a claimed property, the legacy
behaviour is embedded under a name with the suffix _legacy.

Modelling conventions:
  - JSON dictionaries become association lists; dict.get with a default
    becomes List.lookup followed by Option.getD.
  - Machine-level I/O is lifted to explicit parameters: the cache file is a
    CacheView value (whether the file exists, its age in seconds as seen by
    time.time() minus st_mtime, and the result of parsing its bytes), the
    network is the Option-valued result of the corresponding fetch_data call
    (none models a transport error, a non-200 status, or a non-dict body),
    and datetime.now() is the string parameter now.
  - Python integer division and modulo raise ZeroDivisionError on a zero
    divisor; functions that can hit that raise are Option-valued and return
    none exactly where the Python code would raise.
  - The legacy loader can raise json.JSONDecodeError; it is Except-valued.
-/

/-- Player metadata record from the Sleeper player directory; only the
position field is read by the script. -/
structure Player where
  position : Option String
deriving DecidableEq

/-- The player directory: player id to player record, as an association
list standing for the JSON dictionary. -/
abbrev PlayerDir := List (String × Player)

/-- The metadata sub-map of a draft pick; first and last name fields are
optional, matching p_meta.get with an empty-string default in the source. -/
structure PickMeta where
  first_name : Option String
  last_name : Option String
deriving DecidableEq

/-- A draft pick record: player id, drafting user id, and the optional
metadata sub-map (pick.get of the metadata key with an empty-dict default). -/
structure Pick where
  player_id : String
  picked_by : String
  metadata : Option PickMeta
deriving DecidableEq

/-- The user map built in run_kicker_scan: user id to display name. -/
abbrev UserMap := List (String × String)

/-- One entry of the drafts list returned by the drafts endpoint. -/
structure Draft where
  draft_id : String
deriving DecidableEq

/-- View of the on-disk cache file at the moment get_players runs: whether
the path is a file, its age in seconds (time.time() minus st_mtime, an
integer here), and the result of json.load on its bytes (none models a
json.JSONDecodeError). -/
structure CacheView where
  isFile : Bool
  age : Int
  parsed : Option PlayerDir
deriving DecidableEq

/-- CACHE_EXPIRY constant: 24 hours, in seconds. -/
def CACHE_EXPIRY : Int := 86400

/-- TOTAL_NUM_PICKS constant (total_allowed in the legacy script). -/
def TOTAL_NUM_PICKS : Nat := 48

/-- LOW_REMAINING_THRESHOLD constant (inlined as 5 in the legacy script). -/
def LOW_REMAINING_THRESHOLD : Int := 5

/-- The tail of get_players after a cache miss: fetch_data on the players
endpoint, then return the data when it is a truthy dict (writing the cache,
a side effect not needed by any claim) and an empty dict otherwise. A falsy
(empty) dict skips the cache write but the returned value is the same, so
value-wise the result is the fetched dict or the empty dict. -/
def fresh_players (fetched : Option PlayerDir) : PlayerDir :=
  match fetched with
  | some data => data
  | none => []

/-- get_players of the packaged implementation: when the cache file exists
and its age is under CACHE_EXPIRY, try to parse and return it; a parse
failure is caught (cache corrupted warning) and falls through to the fresh
fetch, as does a missing or stale file. -/
def get_players (cache : CacheView) (fetched : Option PlayerDir) : PlayerDir :=
  if cache.isFile = true ∧ cache.age < CACHE_EXPIRY then
    match cache.parsed with
    | some data => data
    | none => fresh_players fetched
  else
    fresh_players fetched

/-- get_players of the legacy script src/kicker_to_pick.py: identical gate,
but json.load is not wrapped in any try/except, so a fresh cache file whose
bytes fail to parse raises json.JSONDecodeError out of the function. -/
def get_players_legacy (cache : CacheView) (fetched : Option PlayerDir) :
    Except String PlayerDir :=
  if cache.isFile = true ∧ cache.age < CACHE_EXPIRY then
    match cache.parsed with
    | some data => Except.ok data
    | none => Except.error "json.JSONDecodeError"
  else
    Except.ok (fresh_players fetched)

/-- get_auto_draft_id: first entry of the drafts list when the fetch
succeeded and the list is non-empty, else none. The argument is the result
of fetch_data on the drafts endpoint. -/
def get_auto_draft_id (drafts : Option (List Draft)) : Option String :=
  match drafts with
  | some (d :: _) => some d.draft_id
  | _ => none

/-- resolve_draft_id: the Python guard is the truthiness test
if draft_id: return draft_id, so both None and the empty string fall
through to the remote draft-list query. -/
def resolve_draft_id (league_id : String) (draft_id : Option String)
    (drafts : Option (List Draft)) : Option String :=
  match draft_id with
  | some d => if d = "" then get_auto_draft_id drafts else some d
  | none => get_auto_draft_id drafts

/-- Position of the player a pick refers to, looked up in the player
directory: players.get(player_id, empty dict).get(position key). -/
def pickPosition (players : PlayerDir) (p : Pick) : Option String :=
  match List.lookup p.player_id players with
  | some pl => pl.position
  | none => none

/-- The k_picks list comprehension in run_kicker_scan (packaged variant):
keep picks whose directory position is K or P. The legacy script keeps only
K; the claims settled here do not depend on that divergence. -/
def k_picks (players : PlayerDir) (draft_picks : List Pick) : List Pick :=
  draft_picks.filter fun p =>
    (pickPosition players p == some "K") || (pickPosition players p == some "P")

/-- Two-digit zero padding of a natural number, matching both the
formatting directive 02d of the packaged variant and str.zfill(2) of the
legacy variant on the values that occur (positive integers). -/
def zfill2 (n : Nat) : String :=
  if n < 10 then "0" ++ toString n else toString n

/-- user_map.get(picked_by, the string Unknown). -/
def getUser (user_map : UserMap) (user_id : String) : String :=
  (List.lookup user_id user_map).getD "Unknown"

/-- Player display name built inside the loop from the pick metadata only:
first_name and last_name fields with empty-string defaults, joined by a
single space, with no stripping. -/
def playerName (meta : Option PickMeta) : String :=
  (meta.getD { first_name := none, last_name := none }).first_name.getD "" ++ " " ++
    (meta.getD { first_name := none, last_name := none }).last_name.getD ""

/-- One rendered pick line of the loop body, for loop index i. -/
def pickLine (user_map : UserMap) (teams i : Nat) (p : Pick) : String :=
  "Pick " ++ toString (i / teams + 1) ++ "." ++ zfill2 (i % teams + 1) ++
    " @" ++ getUser user_map p.picked_by ++ " (via " ++ playerName p.metadata ++ ")"

/-- The enumerate loop of generate_output: break once the index reaches
TOTAL_NUM_PICKS, otherwise emit the pick line and, when the index closes a
round, the separator line. With teams = 0 the round computation divides by
zero, which in Python raises ZeroDivisionError: modelled as none. The
legacy script additionally emits a round-full marker line next to the
separator; no settled claim depends on that divergence. -/
def renderLoop (user_map : UserMap) (teams : Nat) : Nat → List Pick → Option (List String)
  | _, [] => some []
  | i, p :: ps =>
    if TOTAL_NUM_PICKS ≤ i then some []
    else if teams = 0 then none
    else
      match renderLoop user_map teams (i + 1) ps with
      | none => none
      | some rest =>
          some (pickLine user_map teams i p ::
            ((if (i + 1) % teams = 0 then ["---"] else []) ++ rest))

/-- The three fixed lines that open the output list. -/
def headerLines (final_name now : String) : List String :=
  ["**2026 Rookie Pick Tracker: " ++ final_name ++ "**",
   "*Last Updated: " ++ now ++ "*",
   "---"]

/-- The final-count logic: a low-remaining notice when remaining is in the
half-open window, an all-complete notice when nothing remains, else no
line. remaining is an integer and can be negative. -/
def trailingLines (remaining : Int) : List String :=
  if 0 < remaining ∧ remaining ≤ LOW_REMAINING_THRESHOLD then
    ["**Only " ++ toString remaining ++ " rookie picks remaining.**"]
  else if remaining ≤ 0 then
    ["**Rookie draft picking complete: All 4 rounds assigned.**"]
  else
    []

/-- The output list built by generate_output before the final join: header
lines, then the loop lines, then the literal newline element appended after
the loop, then the trailing summary. The players parameter is accepted and
never read, exactly as in the source. -/
def generate_output_lines (players : PlayerDir) (draft_picks : List Pick)
    (user_map : UserMap) (teams : Nat) (final_name now : String) :
    Option (List String) :=
  match renderLoop user_map teams 0 draft_picks with
  | none => none
  | some body =>
      some (headerLines final_name now ++
        (body ++ (["\n"] ++
          trailingLines ((TOTAL_NUM_PICKS : Int) - (draft_picks.length : Int)))))

/-- generate_output: the output list joined with newlines. -/
def generate_output (players : PlayerDir) (draft_picks : List Pick)
    (user_map : UserMap) (teams : Nat) (final_name now : String) : Option String :=
  match generate_output_lines players draft_picks user_map teams final_name now with
  | none => none
  | some out => some (String.intercalate "\n" out)

/-- Recogniser for pick lines in the output list: lines produced by the
loop body, which all open with the five characters of the word Pick and a
space; no other line of the output list does. -/
def isPickLine (line : String) : Bool :=
  "Pick ".data.isPrefixOf line.data

/-- Specification-side list of the pick lines the loop emits (the loop
lines without the separators), used to state which pick lines appear and
in which order. -/
def pickList (user_map : UserMap) (teams : Nat) : Nat → List Pick → List String
  | _, [] => []
  | i, p :: ps =>
    if TOTAL_NUM_PICKS ≤ i then []
    else pickLine user_map teams i p :: pickList user_map teams (i + 1) ps

/-- Path of the log file, derived from the league display name. -/
def log_path (final_name : String) : String :=
  "logs/" ++ final_name ++ "_log.txt"

/-- write_log_file: the filesystem is shallowly embedded as the set of
existing directories plus the byte content of the target log file (the
empty string when the file does not yet exist). mkdir with exist_ok
creates the logs directory when absent; the append-mode write adds the
report text plus one newline after the existing bytes. -/
def write_log_file (dirs : List String) (prior final_text : String) :
    List String × String :=
  (if "logs" ∈ dirs then dirs else "logs" :: dirs,
   prior ++ (final_text ++ "\n"))

/-- The inline log append at the end of run_kicker_scan in the legacy
script src/kicker_to_pick.py: it opens logs/name_log.txt in append mode
with no prior mkdir and no try/except, so when the logs directory is
absent the open call raises an uncaught FileNotFoundError and nothing is
created or written; when the directory exists it appends the report text
plus one newline like the packaged variant. -/
def write_log_file_legacy (dirs : List String) (prior final_text : String) :
    Except String (List String × String) :=
  if "logs" ∈ dirs then
    Except.ok (dirs, prior ++ (final_text ++ "\n"))
  else
    Except.error "FileNotFoundError"

/-- Any list is a Boolean prefix of itself followed by anything. -/
lemma isPrefixOf_self_append (l t : List Char) : l.isPrefixOf (l ++ t) = true := by
  induction l with
  | nil => simp [List.isPrefixOf]
  | cons a as ih => simp [List.isPrefixOf, ih]

/-- A list opening with the letter P is not a Boolean prefix of a list
opening with a different character. -/
lemma isPrefixOf_cons_ne (c : Char) (as bs : List Char) (h : (c == ('P')) = false) :
    List.isPrefixOf (('P') :: as) (c :: bs) = false := by
  simp [List.isPrefixOf]
  intro hc
  rw [hc] at h
  simp at h

/-- Every line emitted as a pick line is recognised by isPickLine. -/
lemma isPickLine_pickLine (um : UserMap) (teams i : Nat) (p : Pick) :
    isPickLine (pickLine um teams i p) = true := by
  unfold isPickLine pickLine
  simp only [String.data_append, List.append_assoc]
  exact isPrefixOf_self_append _ _

/-- A string whose first character is not the letter P is not a pick line. -/
lemma isPickLine_false_head (s : String) (c : Char) (t : List Char)
    (hs : s.data = c :: t) (hc : c ≠ ('P')) : isPickLine s = false := by
  unfold isPickLine
  rw [hs, show ("Pick ".data) = ('P') :: ("ick ".data) from by decide]
  exact isPrefixOf_cons_ne c _ t (beq_eq_false_iff_ne.mpr hc)

/-- The title line is not a pick line. -/
lemma isPickLine_title (n : String) :
    isPickLine ("**2026 Rookie Pick Tracker: " ++ n ++ "**") = false := by
  apply isPickLine_false_head _ ('*')
    (("*2026 Rookie Pick Tracker: ".data ++ n.data) ++ "**".data)
  · rw [String.data_append, String.data_append,
      show ("**2026 Rookie Pick Tracker: ".data) =
        ('*') :: ("*2026 Rookie Pick Tracker: ".data) from by decide]
    rfl
  · decide

/-- The timestamp line is not a pick line. -/
lemma isPickLine_timestamp (t : String) :
    isPickLine ("*Last Updated: " ++ t ++ "*") = false := by
  apply isPickLine_false_head _ ('*') (("Last Updated: ".data ++ t.data) ++ "*".data)
  · rw [String.data_append, String.data_append,
      show ("*Last Updated: ".data) = ('*') :: ("Last Updated: ".data) from by decide]
    rfl
  · decide

/-- The separator line is not a pick line. -/
lemma isPickLine_sep : isPickLine "---" = false := by decide

/-- The bare newline element is not a pick line. -/
lemma isPickLine_newline : isPickLine "\n" = false := by decide

/-- The all-complete notice is not a pick line. -/
lemma isPickLine_complete :
    isPickLine "**Rookie draft picking complete: All 4 rounds assigned.**" = false := by
  decide

/-- The low-remaining notice is not a pick line, whatever the count says. -/
lemma isPickLine_lowNotice (r : Int) :
    isPickLine ("**Only " ++ toString r ++ " rookie picks remaining.**") = false := by
  apply isPickLine_false_head _ ('*')
    (("*Only ".data ++ (toString r).data) ++ " rookie picks remaining.**".data)
  · rw [String.data_append, String.data_append,
      show ("**Only ".data) = ('*') :: ("*Only ".data) from by decide]
    rfl
  · decide

/-- The header contributes no pick lines. -/
lemma filter_headerLines (n t : String) :
    (headerLines n t).filter isPickLine = [] := by
  simp [headerLines, List.filter_cons, isPickLine_title, isPickLine_timestamp,
    isPickLine_sep]

/-- The trailing summary contributes no pick lines. -/
lemma filter_trailingLines (r : Int) :
    (trailingLines r).filter isPickLine = [] := by
  unfold trailingLines
  split
  · simp [List.filter_cons, isPickLine_lowNotice]
  · split
    · simp [List.filter_cons, isPickLine_complete]
    · rfl

/-- The loop succeeds whenever teams is nonzero, and its pick lines, in
order, are exactly the pickList entries. -/
lemma renderLoop_filter (um : UserMap) (teams : Nat) (ht : teams ≠ 0) :
    ∀ (ps : List Pick) (i : Nat), ∃ ls, renderLoop um teams i ps = some ls ∧
      ls.filter isPickLine = pickList um teams i ps := by
  intro ps
  induction ps with
  | nil => intro i; exact ⟨[], rfl, rfl⟩
  | cons p ps ih =>
    intro i
    by_cases h48 : TOTAL_NUM_PICKS ≤ i
    · exact ⟨[], by simp [renderLoop, h48], by simp [pickList, h48]⟩
    · obtain ⟨rest, hr, hf⟩ := ih (i + 1)
      refine ⟨pickLine um teams i p ::
        ((if (i + 1) % teams = 0 then ["---"] else []) ++ rest), ?_, ?_⟩
      · simp [renderLoop, h48, ht, hr]
      · rw [List.filter_cons]
        simp only [isPickLine_pickLine, if_true]
        rw [List.filter_append]
        have hsep : (if (i + 1) % teams = 0 then ["---"] else []).filter isPickLine = [] := by
          split
          · simp [List.filter_cons, isPickLine_sep]
          · rfl
        rw [hsep, hf]
        simp [pickList, h48]

/-- The pickList for a start index below the cap has one entry per pick,
up to the cap. -/
lemma pickList_length (um : UserMap) (teams : Nat) :
    ∀ (ps : List Pick) (i : Nat),
      (pickList um teams i ps).length = min ps.length (TOTAL_NUM_PICKS - i) := by
  intro ps
  induction ps with
  | nil => intro i; simp [pickList]
  | cons p ps ih =>
    intro i
    by_cases h48 : TOTAL_NUM_PICKS ≤ i
    · simp [pickList, h48]
    · simp only [pickList, h48, if_false, List.length_cons]
      rw [ih (i + 1)]
      simp only [TOTAL_NUM_PICKS] at h48 ⊢
      omega

/-- The j-th entry of the pickList is the pick line of the j-th pick, with
the loop index shifted by the start index. -/
lemma pickList_get (um : UserMap) (teams : Nat) :
    ∀ (ps : List Pick) (i j : Nat) (p : Pick), i + j < TOTAL_NUM_PICKS →
      ps.get? j = some p →
      (pickList um teams i ps).get? j = some (pickLine um teams (i + j) p) := by
  intro ps
  induction ps with
  | nil => intro i j p _ hj; simp at hj
  | cons q qs ih =>
    intro i j p hij hj
    have h48 : ¬ TOTAL_NUM_PICKS ≤ i := by omega
    cases j with
    | zero =>
      simp at hj
      simp [pickList, h48, hj]
    | succ j =>
      simp only [List.get?_cons_succ] at hj
      simp only [pickList, h48, if_false, List.get?_cons_succ]
      have := ih (i + 1) j p (by omega) hj
      rw [this]
      congr 2
      omega

/-- Master shape lemma: with a nonzero teams count, generate_output_lines
succeeds and splits into header, loop body, the newline element, and the
trailing summary, with the body pick lines given by pickList. -/
lemma generate_output_lines_eq (players : PlayerDir) (picks : List Pick)
    (um : UserMap) (teams : Nat) (name now : String) (ht : teams ≠ 0) :
    ∃ body, renderLoop um teams 0 picks = some body ∧
      generate_output_lines players picks um teams name now =
        some (headerLines name now ++ (body ++ (["\n"] ++
          trailingLines ((TOTAL_NUM_PICKS : Int) - (picks.length : Int))))) ∧
      body.filter isPickLine = pickList um teams 0 picks := by
  obtain ⟨body, hb, hf⟩ := renderLoop_filter um teams ht picks 0
  exact ⟨body, hb, by simp [generate_output_lines, hb], hf⟩

/-- Filtering the full output list for pick lines keeps only the loop body
pick lines. -/
lemma filter_output_lines (name now : String) (body : List String) (r : Int) :
    (headerLines name now ++ (body ++ (["\n"] ++ trailingLines r))).filter isPickLine =
      body.filter isPickLine := by
  rw [List.filter_append, List.filter_append, List.filter_append,
    filter_headerLines, filter_trailingLines]
  simp [List.filter_cons, isPickLine_newline]

/-- Last element of the output list when the trailing summary is a single
notice line. -/
lemma getLast_append_singleton (xs ys zs : List String) (a : String) :
    (xs ++ (ys ++ (zs ++ [a]))).getLast? = some a := by
  have h : xs ++ (ys ++ (zs ++ [a])) = (xs ++ ys ++ zs) ++ [a] := by
    simp [List.append_assoc]
  rw [h, List.getLast?_concat]

/-- Character-list decomposition of the low-remaining notice: it opens with
star, star, and the letter O. -/
lemma lowNotice_data (r : Int) :
    ("**Only " ++ toString r ++ " rookie picks remaining.**").data =
      ('*') :: ('*') :: ('O') ::
        (("nly ".data ++ (toString r).data) ++ " rookie picks remaining.**".data) := by
  rw [String.data_append, String.data_append,
    show ("**Only ".data) = ('*') :: ('*') :: ('O') :: ("nly ".data) from by decide]
  rfl

/-- The low-remaining notice is never the bare newline element. -/
lemma lowNotice_ne_newline (r : Int) :
    ("**Only " ++ toString r ++ " rookie picks remaining.**") ≠ "\n" := by
  intro h
  have hd := congrArg String.data h
  rw [lowNotice_data, show ("\n".data) = [('\n')] from by decide] at hd
  injection hd with h1 _
  exact absurd h1 (by decide)

/-- The low-remaining notice is never the all-complete notice. -/
lemma lowNotice_ne_complete (r : Int) :
    ("**Only " ++ toString r ++ " rookie picks remaining.**") ≠
      "**Rookie draft picking complete: All 4 rounds assigned.**" := by
  intro h
  have hd := congrArg String.data h
  rw [lowNotice_data,
    show ("**Rookie draft picking complete: All 4 rounds assigned.**".data) =
      ('*') :: ('*') :: ('R') ::
        ("ookie draft picking complete: All 4 rounds assigned.**".data) from by decide] at hd
  injection hd with h1 hd2
  injection hd2 with h2 hd3
  injection hd3 with h3 _
  exact absurd h3 (by decide)

/-- The all-complete notice is not the bare newline element. -/
lemma complete_ne_newline :
    ("**Rookie draft picking complete: All 4 rounds assigned.**" : String) ≠ "\n" := by
  decide

/-- Claim C1: for every list of qualifying picks and teams_per_round at
least 1, the i-th qualifying pick (0-indexed, below the cap) is rendered
with round number i / teams + 1 and slot-in-round i % teams + 1, formatted
as the round, a dot, and the slot zero-padded to two digits, the round not
padded; in particular for teams = 12 index 11 renders label 1.12 and index
12 renders 2.01. -/
theorem pick_round_slot_label_rendering
    (players : PlayerDir) (picks : List Pick) (um : UserMap) (teams : Nat)
    (name now : String) (ht : 1 ≤ teams) (i : Nat) (p : Pick)
    (hp : picks.get? i = some p) (hi : i < 48) :
    (∃ lines, generate_output_lines players picks um teams name now = some lines ∧
      (lines.filter isPickLine).get? i =
        some ("Pick " ++ toString (i / teams + 1) ++ "." ++ zfill2 (i % teams + 1) ++
          " @" ++ getUser um p.picked_by ++ " (via " ++ playerName p.metadata ++ ")")) ∧
    toString (11 / 12 + 1) ++ "." ++ zfill2 (11 % 12 + 1) = "1.12" ∧
    toString (12 / 12 + 1) ++ "." ++ zfill2 (12 % 12 + 1) = "2.01" := by
  refine ⟨?_, by decide, by decide⟩
  obtain ⟨body, hb, hgol, hfil⟩ :=
    generate_output_lines_eq players picks um teams name now (by omega)
  refine ⟨_, hgol, ?_⟩
  rw [filter_output_lines, hfil]
  have hg := pickList_get um teams picks 0 i p (by simp [TOTAL_NUM_PICKS]; omega) hp
  rw [Nat.zero_add] at hg
  rw [hg]
  rfl

/-- Witness for C1 at a concrete one-pick list with teams = 12. -/
theorem pick_round_slot_label_rendering_witness :
    (∃ lines, generate_output_lines []
        [{ player_id := "4017", picked_by := "u1",
           metadata := some { first_name := some "Alice", last_name := some "Smith" } }]
        [] 12 "L" "T" = some lines ∧
      (lines.filter isPickLine).get? 0 =
        some ("Pick " ++ toString (0 / 12 + 1) ++ "." ++ zfill2 (0 % 12 + 1) ++
          " @" ++ getUser [] "u1" ++ " (via " ++
          playerName (some { first_name := some "Alice", last_name := some "Smith" }) ++ ")")) ∧
    toString (11 / 12 + 1) ++ "." ++ zfill2 (11 % 12 + 1) = "1.12" ∧
    toString (12 / 12 + 1) ++ "." ++ zfill2 (12 % 12 + 1) = "2.01" :=
  pick_round_slot_label_rendering []
    [{ player_id := "4017", picked_by := "u1",
       metadata := some { first_name := some "Alice", last_name := some "Smith" } }]
    [] 12 "L" "T" (by decide) 0
    { player_id := "4017", picked_by := "u1",
      metadata := some { first_name := some "Alice", last_name := some "Smith" } }
    rfl (by decide)

/-- Claim C2: with more than 48 qualifying picks and a positive teams
count, the rendered report holds exactly 48 pick lines; picks at positions
48 and beyond are silently dropped and no error is raised. -/
theorem report_capped_at_48_pick_lines
    (players : PlayerDir) (picks : List Pick) (um : UserMap) (teams : Nat)
    (name now : String) (ht : 1 ≤ teams) (hlen : 48 < picks.length) :
    ∃ lines, generate_output_lines players picks um teams name now = some lines ∧
      (lines.filter isPickLine).length = 48 := by
  obtain ⟨body, hb, hgol, hfil⟩ :=
    generate_output_lines_eq players picks um teams name now (by omega)
  refine ⟨_, hgol, ?_⟩
  rw [filter_output_lines, hfil, pickList_length]
  simp only [TOTAL_NUM_PICKS]
  omega

/-- Witness for C2 at a concrete 49-pick list with teams = 12. -/
theorem report_capped_at_48_pick_lines_witness :
    ∃ lines, generate_output_lines []
        (List.replicate 49
          { player_id := "4017", picked_by := "u1", metadata := none })
        [] 12 "L" "T" = some lines ∧
      (lines.filter isPickLine).length = 48 :=
  report_capped_at_48_pick_lines []
    (List.replicate 49 { player_id := "4017", picked_by := "u1", metadata := none })
    [] 12 "L" "T" (by decide) (by simp)

/-- Claim C3: with remaining = 48 minus the qualifying-pick count, the
rendered report ends with the low-remaining notice exactly when remaining
is positive and at most 5, with the all-rounds-complete notice exactly
when remaining is at most 0, and with neither notice (the report ends with
the bare newline element) when remaining exceeds 5. -/
theorem trailing_summary_notice_rules
    (players : PlayerDir) (picks : List Pick) (um : UserMap) (teams : Nat)
    (name now : String) (ht : 1 ≤ teams) :
    ∃ lines, generate_output_lines players picks um teams name now = some lines ∧
      ((0 < (48 : Int) - (picks.length : Int) ∧ (48 : Int) - (picks.length : Int) ≤ 5) ↔
        lines.getLast? = some ("**Only " ++ toString ((48 : Int) - (picks.length : Int)) ++
          " rookie picks remaining.**")) ∧
      (((48 : Int) - (picks.length : Int) ≤ 0) ↔
        lines.getLast? = some "**Rookie draft picking complete: All 4 rounds assigned.**") ∧
      ((5 : Int) < (48 : Int) - (picks.length : Int) → lines.getLast? = some "\n") := by
  obtain ⟨body, hb, hgol, hfil⟩ :=
    generate_output_lines_eq players picks um teams name now (by omega)
  have hcast : ((TOTAL_NUM_PICKS : Int) - (picks.length : Int)) =
      (48 : Int) - (picks.length : Int) := by
    simp [TOTAL_NUM_PICKS]
  rw [hcast] at hgol
  set r : Int := (48 : Int) - (picks.length : Int) with hr
  by_cases h1 : 0 < r ∧ r ≤ 5
  · have htr : trailingLines r =
        ["**Only " ++ toString r ++ " rookie picks remaining.**"] := by
      simp [trailingLines, LOW_REMAINING_THRESHOLD, h1.1, h1.2]
    rw [htr] at hgol
    refine ⟨_, hgol, ?_, ?_, ?_⟩
    · rw [getLast_append_singleton]
      simp [h1]
    · rw [getLast_append_singleton]
      constructor
      · intro h0
        omega
      · intro heq
        exact absurd (Option.some.inj heq) (lowNotice_ne_complete r)
    · intro h5
      omega
  · by_cases h2 : r ≤ 0
    · have htr : trailingLines r =
          ["**Rookie draft picking complete: All 4 rounds assigned.**"] := by
        have hno : ¬ (0 < r ∧ r ≤ LOW_REMAINING_THRESHOLD) := by
          simp [LOW_REMAINING_THRESHOLD]
          omega
        simp [trailingLines, hno, h2]
      rw [htr] at hgol
      refine ⟨_, hgol, ?_, ?_, ?_⟩
      · rw [getLast_append_singleton]
        constructor
        · intro h0
          omega
        · intro heq
          exact absurd (Option.some.inj heq) (Ne.symm (lowNotice_ne_complete r))
      · rw [getLast_append_singleton]
        simp [h2]
      · intro h5
        omega
    · push_neg at h1 h2
      have h5 : 5 < r := h1 h2
      have htr : trailingLines r = [] := by
        have hno : ¬ (0 < r ∧ r ≤ LOW_REMAINING_THRESHOLD) := by
          simp [LOW_REMAINING_THRESHOLD]
          omega
        have hno2 : ¬ (r ≤ 0) := by omega
        simp [trailingLines, hno, hno2]
      rw [htr] at hgol
      have hshape : headerLines name now ++ (body ++ (["\n"] ++ ([] : List String))) =
          headerLines name now ++ (body ++ (([] : List String) ++ ["\n"])) := by
        simp
      rw [hshape] at hgol
      refine ⟨_, hgol, ?_, ?_, ?_⟩
      · rw [getLast_append_singleton]
        constructor
        · intro h0
          omega
        · intro heq
          exact absurd (Option.some.inj heq).symm (lowNotice_ne_newline r)
      · rw [getLast_append_singleton]
        constructor
        · intro h0
          omega
        · intro heq
          exact absurd (Option.some.inj heq).symm complete_ne_newline
      · intro _
        rw [getLast_append_singleton]

/-- Witness for C3 at a concrete 44-pick list (remaining = 4). -/
theorem trailing_summary_notice_rules_witness :
    ∃ lines, generate_output_lines []
        (List.replicate 44 (⟨"4017", "u1", none⟩ : Pick))
        [] 12 "L" "T" = some lines ∧
      ((0 < (48 : Int) - ((List.replicate 44 (⟨"4017", "u1", none⟩ : Pick)).length : Int) ∧
        (48 : Int) - ((List.replicate 44 (⟨"4017", "u1", none⟩ : Pick)).length : Int) ≤ 5) ↔
        lines.getLast? = some ("**Only " ++
          toString ((48 : Int) -
            ((List.replicate 44 (⟨"4017", "u1", none⟩ : Pick)).length : Int)) ++
          " rookie picks remaining.**")) ∧
      (((48 : Int) - ((List.replicate 44 (⟨"4017", "u1", none⟩ : Pick)).length : Int) ≤ 0) ↔
        lines.getLast? = some "**Rookie draft picking complete: All 4 rounds assigned.**") ∧
      ((5 : Int) < (48 : Int) -
          ((List.replicate 44 (⟨"4017", "u1", none⟩ : Pick)).length : Int) →
        lines.getLast? = some "\n") :=
  trailing_summary_notice_rules []
    (List.replicate 44 (⟨"4017", "u1", none⟩ : Pick))
    [] 12 "L" "T" (by decide)

/-- Claim C4: with an existing, parseable cache file, the loader returns
the parsed cache contents verbatim whenever the file age is strictly below
86400 seconds, and ignores the cache (whatever it parses to) and returns
the fresh-fetch result when the age is 86400 seconds or more. -/
theorem cache_freshness_window (c : CacheView) (d : PlayerDir)
    (fetched : Option PlayerDir)
    (hfile : c.isFile = true) (hparsed : c.parsed = some d) :
    (c.age < 86400 → get_players c fetched = d) ∧
    (86400 ≤ c.age → ∀ parsed',
      get_players { c with parsed := parsed' } fetched = fresh_players fetched) := by
  constructor
  · intro hage
    simp [get_players, CACHE_EXPIRY, hfile, hage, hparsed]
  · intro hage parsed'
    have hno : ¬ (({ c with parsed := parsed' } : CacheView).isFile = true ∧
        ({ c with parsed := parsed' } : CacheView).age < CACHE_EXPIRY) := by
      simp [CACHE_EXPIRY]
      intro _
      omega
    simp [get_players, hno]

/-- Witness for C4 at ages 86399 (cache hit) and 86401 (refetch). -/
theorem cache_freshness_window_witness :
    get_players ⟨true, 86399, some [("4017", ⟨some "K"⟩)]⟩ none = [("4017", ⟨some "K"⟩)] ∧
    get_players ⟨true, 86401, some [("4017", ⟨some "K"⟩)]⟩ (some [("9999", ⟨some "P"⟩)]) =
      fresh_players (some [("9999", ⟨some "P"⟩)]) :=
  ⟨(cache_freshness_window ⟨true, 86399, some [("4017", ⟨some "K"⟩)]⟩
      [("4017", ⟨some "K"⟩)] none rfl rfl).1 (by decide),
   (cache_freshness_window ⟨true, 86401, some [("4017", ⟨some "K"⟩)]⟩
      [("4017", ⟨some "K"⟩)] (some [("9999", ⟨some "P"⟩)]) rfl rfl).2 (by decide)
      (some [("4017", ⟨some "K"⟩)])⟩

/-- Claim C5: on a fresh cache file whose bytes do not parse, the legacy
loader of src/kicker_to_pick.py propagates the json.JSONDecodeError (no
try/except around json.load), while the packaged loader catches it and
falls through to the fresh fetch as the spec requires. -/
theorem malformed_fresh_cache_divergence :
    get_players_legacy ⟨true, 0, none⟩ (some [("4017", ⟨some "K"⟩)]) =
      Except.error "json.JSONDecodeError" ∧
    get_players ⟨true, 0, none⟩ (some [("4017", ⟨some "K"⟩)]) = [("4017", ⟨some "K"⟩)] := by
  constructor <;> rfl

/-- Claim C6: with the logs directory absent, the legacy inline append of
src/kicker_to_pick.py raises an uncaught FileNotFoundError and creates no
directory, falsifying the create-if-absent part of the claim for that
variant; the packaged write_log_file at the same input behaves as the
claim states, and in general creates the logs directory when absent and
appends exactly the report text plus one newline after the prior bytes of
the log file, leaving every preceding byte unchanged. -/
theorem log_append_missing_dir_divergence :
    write_log_file_legacy [] "old" "report" = Except.error "FileNotFoundError" ∧
    write_log_file [] "old" "report" = (["logs"], "old" ++ ("report" ++ "\n")) ∧
    (∀ (dirs : List String) (prior final_text : String),
      "logs" ∈ (write_log_file dirs prior final_text).1 ∧
      (write_log_file dirs prior final_text).2 = prior ++ (final_text ++ "\n") ∧
      (write_log_file dirs prior final_text).2.data.take prior.data.length = prior.data ∧
      (write_log_file dirs prior final_text).2.data.drop prior.data.length =
        final_text.data ++ "\n".data) := by
  refine ⟨rfl, rfl, ?_⟩
  intro dirs prior final_text
  refine ⟨?_, rfl, ?_, ?_⟩
  · unfold write_log_file
    dsimp only
    split
    · assumption
    · exact List.mem_cons_self _ _
  · show (prior ++ (final_text ++ "\n")).data.take prior.data.length = prior.data
    rw [String.data_append, List.take_left]
  · show (prior ++ (final_text ++ "\n")).data.drop prior.data.length =
      final_text.data ++ "\n".data
    rw [String.data_append, List.drop_left, String.data_append]

/-- Claim C7: when the remote player-directory fetch fails and no fresh
usable cache exists, the loader returns the empty mapping, downstream
filtering matches nothing, and the report still renders with zero pick
lines. -/
theorem fetch_failure_empty_directory (c : CacheView)
    (hc : c.isFile = false ∨ 86400 ≤ c.age ∨ c.parsed = none) :
    get_players c none = [] ∧
    (∀ draft_picks : List Pick, k_picks (get_players c none) draft_picks = []) ∧
    (∀ (draft_picks : List Pick) (um : UserMap) (teams : Nat) (name now : String),
      ∃ lines, generate_output_lines (get_players c none)
          (k_picks (get_players c none) draft_picks) um teams name now = some lines ∧
        lines.filter isPickLine = []) := by
  have h0 : get_players c none = [] := by
    unfold get_players
    rcases hc with h | h | h
    · simp [h, fresh_players]
    · have hno : ¬ (c.isFile = true ∧ c.age < CACHE_EXPIRY) := by
        simp [CACHE_EXPIRY]
        intro _
        omega
      simp [hno, fresh_players]
    · by_cases hf : c.isFile = true ∧ c.age < CACHE_EXPIRY
      · simp [hf, h, fresh_players]
      · simp [hf, fresh_players]
  have hk : ∀ draft_picks : List Pick, k_picks (get_players c none) draft_picks = [] := by
    intro dps
    rw [h0]
    unfold k_picks
    apply List.filter_eq_nil_iff.mpr
    intro p _
    have hp : pickPosition [] p = none := rfl
    rw [hp]
    decide
  refine ⟨h0, hk, ?_⟩
  intro dps um teams name now
  rw [hk dps, h0]
  refine ⟨_, rfl, ?_⟩
  rw [filter_output_lines]
  rfl

/-- Witness for C7 at a concrete absent cache file and one draft pick. -/
theorem fetch_failure_empty_directory_witness :
    get_players ⟨false, 0, none⟩ none = [] ∧
    k_picks (get_players ⟨false, 0, none⟩ none) [⟨"4017", "u1", none⟩] = [] ∧
    (∃ lines, generate_output_lines (get_players ⟨false, 0, none⟩ none)
        (k_picks (get_players ⟨false, 0, none⟩ none) [⟨"4017", "u1", none⟩])
        [] 12 "L" "T" = some lines ∧
      lines.filter isPickLine = []) :=
  have h := fetch_failure_empty_directory ⟨false, 0, none⟩ (Or.inl rfl)
  ⟨h.1, h.2.1 [⟨"4017", "u1", none⟩], h.2.2 [⟨"4017", "u1", none⟩] [] 12 "L" "T"⟩

/-- Claim C8 counterexample: with both metadata name fields empty, the
rendered pick line reads via-space-space (the space join is kept, nothing
is trimmed), not the empty display name the claim asserts. -/
theorem player_name_not_trimmed_counterexample :
    (∃ lines, generate_output_lines []
        [⟨"4017", "u1", some ⟨some "", some ""⟩⟩] [] 12 "L" "T" = some lines ∧
      lines.filter isPickLine = ["Pick 1.01 @Unknown (via  )"]) ∧
    ("Pick 1.01 @Unknown (via  )" : String) ≠ "Pick 1.01 @Unknown (via )" := by
  refine ⟨⟨["**2026 Rookie Pick Tracker: L**", "*Last Updated: T*", "---",
    "Pick 1.01 @Unknown (via  )", "\n"], by decide, by decide⟩, by decide⟩

/-- Claim C8 as amended: the rendered player display name is the pick's
own embedded first and last name joined with a single space and NOT
trimmed, so two empty fields yield a single space; the player directory is
never consulted by the report generator (its players argument is unread). -/
theorem player_name_from_embedded_metadata
    (players : PlayerDir) (picks : List Pick) (um : UserMap) (teams : Nat)
    (name now : String) (ht : 1 ≤ teams) (i : Nat) (p : Pick)
    (hp : picks.get? i = some p) (hi : i < 48)
    (firstN lastN : String)
    (hm : p.metadata = some ⟨some firstN, some lastN⟩) :
    (∀ players' : PlayerDir,
      generate_output_lines players' picks um teams name now =
        generate_output_lines players picks um teams name now) ∧
    (∃ lines, generate_output_lines players picks um teams name now = some lines ∧
      (lines.filter isPickLine).get? i =
        some ("Pick " ++ toString (i / teams + 1) ++ "." ++ zfill2 (i % teams + 1) ++
          " @" ++ getUser um p.picked_by ++ " (via " ++ (firstN ++ " " ++ lastN) ++ ")")) ∧
    (("" : String) ++ " " ++ "" = " ") := by
  refine ⟨fun _ => rfl, ?_, rfl⟩
  obtain ⟨body, hb, hgol, hfil⟩ :=
    generate_output_lines_eq players picks um teams name now (by omega)
  refine ⟨_, hgol, ?_⟩
  rw [filter_output_lines, hfil]
  have hg := pickList_get um teams picks 0 i p (by simp [TOTAL_NUM_PICKS]; omega) hp
  rw [Nat.zero_add] at hg
  rw [hg]
  unfold pickLine playerName
  rw [hm]
  rfl

/-- Witness for the amended C8 at a concrete pick with empty name fields. -/
theorem player_name_from_embedded_metadata_witness :
    (∀ players' : PlayerDir,
      generate_output_lines players' [⟨"4017", "u1", some ⟨some "", some ""⟩⟩]
          [] 12 "L" "T" =
        generate_output_lines [] [⟨"4017", "u1", some ⟨some "", some ""⟩⟩] [] 12 "L" "T") ∧
    (∃ lines, generate_output_lines [] [⟨"4017", "u1", some ⟨some "", some ""⟩⟩]
        [] 12 "L" "T" = some lines ∧
      (lines.filter isPickLine).get? 0 =
        some ("Pick " ++ toString (0 / 12 + 1) ++ "." ++ zfill2 (0 % 12 + 1) ++
          " @" ++ getUser [] "u1" ++ " (via " ++ (("" : String) ++ " " ++ "") ++ ")")) ∧
    (("" : String) ++ " " ++ "" = " ") :=
  player_name_from_embedded_metadata [] [⟨"4017", "u1", some ⟨some "", some ""⟩⟩]
    [] 12 "L" "T" (by decide) 0 ⟨"4017", "u1", some ⟨some "", some ""⟩⟩ rfl (by decide)
    "" "" rfl

/-- Claim C9 counterexample: a supplied empty-string draft identifier is
NOT returned verbatim; the Python truthiness guard treats it as absent, so
the resolver queries the remote draft list and returns its first entry. -/
theorem resolve_draft_id_empty_not_verbatim :
    resolve_draft_id "league1" (some "") (some [⟨"999"⟩]) = some "999" ∧
    (some "999" : Option String) ≠ some "" := by
  exact ⟨rfl, by decide⟩

/-- Claim C9 as amended: a supplied NON-empty draft identifier is returned
verbatim, independently of the remote draft list (never queried); an empty
string, like a missing identifier, falls through to the remote query. -/
theorem resolve_draft_id_nonempty_verbatim (league_id : String) (d : String)
    (hd : d ≠ "") :
    (∀ drafts, resolve_draft_id league_id (some d) drafts = some d) ∧
    (∀ drafts, resolve_draft_id league_id (some "") drafts = get_auto_draft_id drafts) ∧
    (∀ drafts, resolve_draft_id league_id none drafts = get_auto_draft_id drafts) := by
  refine ⟨?_, fun _ => rfl, fun _ => rfl⟩
  intro drafts
  simp [resolve_draft_id, hd]

/-- Witness for the amended C9 at a concrete non-empty identifier. -/
theorem resolve_draft_id_nonempty_verbatim_witness :
    (∀ drafts, resolve_draft_id "league1" (some "12345") drafts = some "12345") ∧
    (∀ drafts, resolve_draft_id "league1" (some "") drafts = get_auto_draft_id drafts) ∧
    (∀ drafts, resolve_draft_id "league1" none drafts = get_auto_draft_id drafts) :=
  resolve_draft_id_nonempty_verbatim "league1" "12345" (by decide)

/-- Claim C10: report generation is total exactly under a positive teams
count: any positive teams count yields a report for every pick list, while
teams = 0 with at least one qualifying pick hits the zero-divisor error
branch of the round computation and produces no report. -/
theorem generate_output_total_iff_positive_teams :
    (∀ (players : PlayerDir) (picks : List Pick) (um : UserMap) (name now : String)
        (teams : Nat), 1 ≤ teams →
      ∃ text, generate_output players picks um teams name now = some text) ∧
    (∀ (players : PlayerDir) (p : Pick) (ps : List Pick) (um : UserMap)
        (name now : String),
      generate_output players (p :: ps) um 0 name now = none) := by
  constructor
  · intro players picks um name now teams ht
    obtain ⟨body, hb, hgol, hfil⟩ :=
      generate_output_lines_eq players picks um teams name now (by omega)
    refine ⟨String.intercalate "\n" (headerLines name now ++ (body ++ (["\n"] ++
      trailingLines ((TOTAL_NUM_PICKS : Int) - (picks.length : Int))))), ?_⟩
    simp [generate_output, hgol]
  · intro players p ps um name now
    rfl

/-- Witness for C10 at a concrete pick list with teams = 12. -/
theorem generate_output_total_iff_positive_teams_witness :
    ∃ text, generate_output [] [⟨"4017", "u1", none⟩] [] 12 "L" "T" = some text :=
  generate_output_total_iff_positive_teams.1 [] [⟨"4017", "u1", none⟩] [] "L" "T" 12
    (by decide)
